import Mathlib

/-!
Verification of the SimpleMicroservices FastAPI application (`main.py` and
`models/`).  The application keeps four process-local dictionaries keyed by
UUID (`persons`, `addresses`, `employees`, `paychecks`) and exposes CRUD
handlers over them.  We embed each dictionary as an insertion-ordered
association list (Python 3.7+ dicts preserve insertion order), UUIDs as
opaque `Nat` keys, Python strings as `String`, `float` amounts as `ℚ`
(every amount appearing in the claims is exactly representable), and each
HTTP handler as a pure function from the global state (plus its request
arguments, with `uuid4()` results passed in as an explicit fresh-id
argument) to a response paired with the new global state.
-/

namespace SimpleMS

/-- Result of one HTTP handler call: either a success status code with a
response body, or an `HTTPException` with a status code and detail string. -/
inductive ApiResult (α : Type) where
  | ok (status : Nat) (body : α)
  | err (status : Nat) (detail : String)
deriving DecidableEq, Repr

/-- One field of a Pydantic partial-update payload under
`model_dump(exclude_unset=True)`: either the client did not supply the field
(`unset`, excluded from the dump) or supplied the value `v` (`set v`,
included in the dump). -/
inductive Patch (α : Type) where
  | unset
  | set (v : α)
deriving DecidableEq, Repr

/-- Value of a patched field: the supplied value if set, the stored default
otherwise.  This is what `stored.update(payload.model_dump(exclude_unset=True))`
computes per field. -/
def Patch.getD : Patch α → α → α
  | .unset, d => d
  | .set v, _ => v

/-- A Python dict keyed by UUID, embedded as an insertion-ordered
association list with `Nat` keys. -/
abbrev Store (α : Type) : Type := List (Nat × α)

namespace Store

/-- `k in d` on a Python dict. -/
def contains (s : Store α) (k : Nat) : Bool :=
  s.any (fun p => p.1 == k)

/-- `d[k]` on a Python dict, `none` when the key is absent. -/
def get? (s : Store α) (k : Nat) : Option α :=
  (s.find? (fun p => p.1 == k)).map (fun p => p.2)

/-- Replace the value stored at an existing key, keeping its position. -/
def replaceEntry : Store α → Nat → α → Store α
  | [], _, _ => []
  | p :: t, k, v => if p.1 == k then (k, v) :: t else p :: replaceEntry t k v

/-- `d[k] = v` on a Python dict: replaces the value in place when the key
exists, otherwise appends the new entry (dicts preserve insertion order). -/
def insert (s : Store α) (k : Nat) (v : α) : Store α :=
  if s.contains k then replaceEntry s k v else s ++ [(k, v)]

/-- `del d[k]` on a Python dict (the handlers only call it on present keys). -/
def erase (s : Store α) (k : Nat) : Store α :=
  s.filter (fun p => p.1 != k)

/-- `list(d.values())` on a Python dict: the values in insertion order. -/
def values (s : Store α) : List α :=
  s.map (fun p => p.2)

end Store

/-!  Data models.  `models/empoyee.py`, `models/paycheck.py` and
`models/product.py` are present in the source tree and are embedded
directly.  `models/address.py` and `models/person.py` are imported by
`main.py` but absent from the tree, so those records are modelled from the
spec (client-supplied UUID identifier; fields named after the query filters
of `list_addresses` / `list_persons` in `main.py`, with optionality per the
spec's "a set of declared fields with type and optionality"). -/

/-- Modelled from the spec: `models/address.py` is missing from the source
tree.  An address record with a client-supplied id and the five fields that
`main.py`'s `list_addresses` filters on; `state` is optional (nullable). -/
structure AddressRead where
  id : Nat
  street : String
  city : String
  state : Option String
  postal_code : String
  country : String
deriving DecidableEq, Repr

/-- Modelled from the spec: creation payload for an address, carrying the
client-supplied id and the same fields as `AddressRead`. -/
structure AddressCreate where
  id : Nat
  street : String
  city : String
  state : Option String
  postal_code : String
  country : String
deriving DecidableEq, Repr

/-- `AddressRead(**address.model_dump())` in `create_address`. -/
def AddressRead.ofCreate (a : AddressCreate) : AddressRead :=
  { id := a.id, street := a.street, city := a.city, state := a.state,
    postal_code := a.postal_code, country := a.country }

/-- Modelled from the spec: partial-update payload for an address
(`AddressUpdate`); every field is optional-to-supply, and the nullable
`state` field can be explicitly set to null, which `exclude_unset`
distinguishes from not supplying it. -/
structure AddressUpdate where
  street : Patch String
  city : Patch String
  state : Patch (Option String)
  postal_code : Patch String
  country : Patch String
deriving DecidableEq, Repr

/-- Modelled from the spec: `models/person.py` is missing from the source
tree.  A person record with a client-supplied id and the fields that
`main.py`'s `list_persons` filters on (dates as ISO strings; an embedded
list of addresses). -/
structure PersonRead where
  id : Nat
  uni : String
  first_name : String
  last_name : String
  email : String
  phone : String
  birth_date : String
  addresses : List AddressRead
deriving DecidableEq, Repr

/-- Modelled from the spec: creation payload for a person, carrying the
client-supplied id and the same fields as `PersonRead`. -/
structure PersonCreate where
  id : Nat
  uni : String
  first_name : String
  last_name : String
  email : String
  phone : String
  birth_date : String
  addresses : List AddressRead
deriving DecidableEq, Repr

/-- `PersonRead(**person.model_dump())` in `create_person`. -/
def PersonRead.ofCreate (p : PersonCreate) : PersonRead :=
  { id := p.id, uni := p.uni, first_name := p.first_name,
    last_name := p.last_name, email := p.email, phone := p.phone,
    birth_date := p.birth_date, addresses := p.addresses }

/-- Modelled from the spec: partial-update payload for a person
(`PersonUpdate`), carrying only the fields to change and no id. -/
structure PersonUpdate where
  uni : Patch String
  first_name : Patch String
  last_name : Patch String
  email : Patch String
  phone : Patch String
  birth_date : Patch String
  addresses : Patch (List AddressRead)
deriving DecidableEq, Repr

/-- `EmployeeCreate` from `models/empoyee.py`. -/
structure EmployeeCreate where
  name : String
  email : String
  position : String
deriving DecidableEq, Repr

/-- `EmployeeRead` from `models/empoyee.py`: the base fields plus the
server-generated id. -/
structure EmployeeRead where
  id : Nat
  name : String
  email : String
  position : String
deriving DecidableEq, Repr

/-- `EmployeeUpdate` from `models/empoyee.py`: all three fields are
`Optional[str] = None`; `unset` models a field the client did not supply
(dropped by `exclude_unset`).  An explicit JSON `null` would make
`EmployeeRead(**stored)` fail re-validation (an error path none of the
claims touch), so it is not modelled. -/
structure EmployeeUpdate where
  name : Patch String
  email : Patch String
  position : Patch String
deriving DecidableEq, Repr

/-- `PaycheckCreate` from `models/paycheck.py` (amounts as `ℚ`, dates as
ISO strings). -/
structure PaycheckCreate where
  employee_id : Nat
  amount : ℚ
  date_issued : String
deriving DecidableEq, Repr

/-- `PaycheckRead` from `models/paycheck.py`. -/
structure PaycheckRead where
  id : Nat
  employee_id : Nat
  amount : ℚ
  date_issued : String
deriving DecidableEq, Repr

/-- `PaycheckUpdate` from `models/paycheck.py` (same `exclude_unset`
convention as `EmployeeUpdate`). -/
structure PaycheckUpdate where
  employee_id : Patch Nat
  amount : Patch ℚ
  date_issued : Patch String
deriving DecidableEq, Repr

/-- `Product` from `models/product.py` (price as `ℚ`). -/
structure Product where
  id : Nat
  name : String
  price : ℚ
  description : Option String
deriving DecidableEq, Repr

/-- The four module-level dictionaries of `main.py`. -/
structure AppState where
  persons : Store PersonRead
  addresses : Store AddressRead
  employees : Store EmployeeRead
  paychecks : Store PaycheckRead
deriving DecidableEq, Repr

/-!  Handlers, one Lean function per FastAPI route handler in `main.py`.
Each mutating handler takes the global `AppState` and returns the response
together with the new state; read-only handlers return just the response.
`uuid4()` calls become explicit `newId` arguments. -/

/-- `create_address` (`POST /addresses`, main.py lines 100-108). -/
def create_address (st : AppState) (address : AddressCreate) :
    ApiResult AddressRead × AppState :=
  if st.addresses.contains address.id then
    (.err 400 "Address with this ID already exists", st)
  else
    let addr_read := AddressRead.ofCreate address
    (.ok 201 addr_read,
     { st with addresses := st.addresses.insert addr_read.id addr_read })

/-- `list_addresses` (`GET /addresses`, main.py lines 112-130): start from
all stored values and apply one equality filter per supplied query
parameter, in source order. -/
def list_addresses (st : AppState)
    (street city state postal_code country : Option String) :
    List AddressRead :=
  let results := st.addresses.values
  let results := match street with
    | none => results
    | some v => results.filter (fun a => a.street == v)
  let results := match city with
    | none => results
    | some v => results.filter (fun a => a.city == v)
  let results := match state with
    | none => results
    | some v => results.filter (fun a => a.state == some v)
  let results := match postal_code with
    | none => results
    | some v => results.filter (fun a => a.postal_code == v)
  let results := match country with
    | none => results
    | some v => results.filter (fun a => a.country == v)
  results

/-- `get_address` (`GET /addresses/{address_id}`, main.py lines 134-137). -/
def get_address (st : AppState) (address_id : Nat) : ApiResult AddressRead :=
  match st.addresses.get? address_id with
  | none => .err 404 "Address not found"
  | some a => .ok 200 a

/-- The merge step of `update_address` (main.py lines 144-146):
`stored = addresses[address_id].model_dump()`;
`stored.update(update.model_dump(exclude_unset=True))`;
`AddressRead(**stored)`.  The dump carries the stored id, which the patch
payload cannot mention. -/
def mergeAddress (stored : AddressRead) (update : AddressUpdate) : AddressRead :=
  { id := stored.id,
    street := update.street.getD stored.street,
    city := update.city.getD stored.city,
    state := update.state.getD stored.state,
    postal_code := update.postal_code.getD stored.postal_code,
    country := update.country.getD stored.country }

/-- `update_address` (`PATCH /addresses/{address_id}`, main.py lines
140-148). -/
def update_address (st : AppState) (address_id : Nat)
    (update : AddressUpdate) : ApiResult AddressRead × AppState :=
  match st.addresses.get? address_id with
  | none => (.err 404 "Address not found", st)
  | some stored =>
    let merged := mergeAddress stored update
    (.ok 200 merged,
     { st with addresses := st.addresses.insert address_id merged })

/-- `create_person` (`POST /persons`, main.py lines 160-164).  Note: unlike
`create_address`, there is no duplicate-id check in the source. -/
def create_person (st : AppState) (person : PersonCreate) :
    ApiResult PersonRead × AppState :=
  let person_read := PersonRead.ofCreate person
  (.ok 201 person_read,
   { st with persons := st.persons.insert person_read.id person_read })

/-- `get_person` (`GET /persons/{person_id}`, main.py lines 206-210). -/
def get_person (st : AppState) (person_id : Nat) : ApiResult PersonRead :=
  match st.persons.get? person_id with
  | none => .err 404 "Person not found"
  | some p => .ok 200 p

/-- The merge step of `update_person` (main.py lines 217-219), same shape
as `mergeAddress`. -/
def mergePerson (stored : PersonRead) (update : PersonUpdate) : PersonRead :=
  { id := stored.id,
    uni := update.uni.getD stored.uni,
    first_name := update.first_name.getD stored.first_name,
    last_name := update.last_name.getD stored.last_name,
    email := update.email.getD stored.email,
    phone := update.phone.getD stored.phone,
    birth_date := update.birth_date.getD stored.birth_date,
    addresses := update.addresses.getD stored.addresses }

/-- `update_person` (`PATCH /persons/{person_id}`, main.py lines 213-221). -/
def update_person (st : AppState) (person_id : Nat)
    (update : PersonUpdate) : ApiResult PersonRead × AppState :=
  match st.persons.get? person_id with
  | none => (.err 404 "Person not found", st)
  | some stored =>
    let merged := mergePerson stored update
    (.ok 200 merged,
     { st with persons := st.persons.insert person_id merged })

/-- `create_employee` (`POST /employees`, main.py lines 238-243); `newId`
is the `uuid4()` result. -/
def create_employee (st : AppState) (newId : Nat) (payload : EmployeeCreate) :
    ApiResult EmployeeRead × AppState :=
  let emp : EmployeeRead :=
    { id := newId, name := payload.name, email := payload.email,
      position := payload.position }
  (.ok 201 emp, { st with employees := st.employees.insert newId emp })

/-- `get_employee` (`GET /employees/{employee_id}`, main.py lines 247-250). -/
def get_employee (st : AppState) (employee_id : Nat) : ApiResult EmployeeRead :=
  match st.employees.get? employee_id with
  | none => .err 404 "Employee not found"
  | some e => .ok 200 e

/-- The merge step of `update_employee` (main.py lines 257-259). -/
def mergeEmployee (stored : EmployeeRead) (payload : EmployeeUpdate) : EmployeeRead :=
  { id := stored.id,
    name := payload.name.getD stored.name,
    email := payload.email.getD stored.email,
    position := payload.position.getD stored.position }

/-- `update_employee` (`PUT /employees/{employee_id}`, main.py lines
253-261).  Despite the PUT verb, the body merges with `exclude_unset`,
exactly like the PATCH handlers. -/
def update_employee (st : AppState) (employee_id : Nat)
    (payload : EmployeeUpdate) : ApiResult EmployeeRead × AppState :=
  match st.employees.get? employee_id with
  | none => (.err 404 "Employee not found", st)
  | some stored =>
    let merged := mergeEmployee stored payload
    (.ok 200 merged,
     { st with employees := st.employees.insert employee_id merged })

/-- `delete_employee` (`DELETE /employees/{employee_id}`, main.py lines
269-274). -/
def delete_employee (st : AppState) (employee_id : Nat) :
    ApiResult Unit × AppState :=
  if st.employees.contains employee_id then
    (.ok 204 (), { st with employees := st.employees.erase employee_id })
  else
    (.err 404 "Employee not found", st)

/-- `create_paycheck` (`POST /paychecks`, main.py lines 291-299): validates
that the referenced employee exists before storing; `newId` is the
`uuid4()` result. -/
def create_paycheck (st : AppState) (newId : Nat) (payload : PaycheckCreate) :
    ApiResult PaycheckRead × AppState :=
  if st.employees.contains payload.employee_id then
    let pc : PaycheckRead :=
      { id := newId, employee_id := payload.employee_id,
        amount := payload.amount, date_issued := payload.date_issued }
    (.ok 201 pc, { st with paychecks := st.paychecks.insert newId pc })
  else
    (.err 400 "employee_id does not exist", st)

/-- `get_paycheck` (`GET /paychecks/{paycheck_id}`, main.py lines 302-306). -/
def get_paycheck (st : AppState) (paycheck_id : Nat) : ApiResult PaycheckRead :=
  match st.paychecks.get? paycheck_id with
  | none => .err 404 "Paycheck not found"
  | some p => .ok 200 p

/-- The merge step of `update_paycheck` (main.py lines 313-315). -/
def mergePaycheck (stored : PaycheckRead) (payload : PaycheckUpdate) : PaycheckRead :=
  { id := stored.id,
    employee_id := payload.employee_id.getD stored.employee_id,
    amount := payload.amount.getD stored.amount,
    date_issued := payload.date_issued.getD stored.date_issued }

/-- `update_paycheck` (`PUT /paychecks/{paycheck_id}`, main.py lines
309-317).  Only the paycheck's existence is checked; the (possibly new)
`employee_id` is not validated against the employees store. -/
def update_paycheck (st : AppState) (paycheck_id : Nat)
    (payload : PaycheckUpdate) : ApiResult PaycheckRead × AppState :=
  match st.paychecks.get? paycheck_id with
  | none => (.err 404 "Paycheck not found", st)
  | some stored =>
    let merged := mergePaycheck stored payload
    (.ok 200 merged,
     { st with paychecks := st.paychecks.insert paycheck_id merged })

/-- `delete_paycheck` (`DELETE /paychecks/{paycheck_id}`, main.py lines
325-330). -/
def delete_paycheck (st : AppState) (paycheck_id : Nat) :
    ApiResult Unit × AppState :=
  if st.paychecks.contains paycheck_id then
    (.ok 204 (), { st with paychecks := st.paychecks.erase paycheck_id })
  else
    (.err 404 "Paycheck not found", st)

/-- Modelled from the spec: no order record or order endpoints exist under
src/ (only `models/product.py` does).  An order references a product and
carries the derived field `total_price` (spec §3: "Derived fields (e.g., an
order's total price) are recomputed deterministically from current inputs
whenever a dependency field changes"). -/
structure OrderRead where
  id : Nat
  product_id : Nat
  quantity : Nat
  total_price : ℚ
deriving DecidableEq, Repr

/-- Modelled from the spec: order creation, per spec §4.2 ("Before creating
an order ... the handler must verify the referenced entity (product) exists
in its store; absence signals a client error") and the §8 scenario
(`total_price` is the referenced product's price times the quantity). -/
def create_order (products : Store Product) (orders : Store OrderRead)
    (newId product_id quantity : Nat) : ApiResult OrderRead × Store OrderRead :=
  match products.get? product_id with
  | none => (.err 400 "product_id does not exist", orders)
  | some p =>
    let o : OrderRead :=
      { id := newId, product_id := product_id, quantity := quantity,
        total_price := p.price * quantity }
    (.ok 201 o, orders.insert newId o)

/-- Modelled from the spec: update of an order's quantity, recomputing the
derived `total_price` from the current product price and the new quantity
(spec §4.1 PartialUpdate "merges only provided patch fields and recomputes
any derived fields", and the §8 scenario's quantity update). -/
def update_order_quantity (products : Store Product) (orders : Store OrderRead)
    (order_id quantity : Nat) : ApiResult OrderRead × Store OrderRead :=
  match orders.get? order_id with
  | none => (.err 404 "Order not found", orders)
  | some stored =>
    match products.get? stored.product_id with
    | none => (.err 400 "product_id does not exist", orders)
    | some p =>
      let merged : OrderRead :=
        { stored with quantity := quantity, total_price := p.price * quantity }
      (.ok 200 merged, orders.insert order_id merged)

/-!  Predicates used to state claim C3.  `addrMatches` is the conjunction
of the equality filters the code applies; `specAddrMatches` instead follows
the claim's words ("each filter matches by equality or case-insensitive
substring on the named field") and is compared against the code. -/

/-- Whether the first character list is an initial segment of the second. -/
def startsWithChars : List Char → List Char → Bool
  | [], _ => true
  | _ :: _, [] => false
  | a :: as, b :: bs => a == b && startsWithChars as bs

/-- Whether the needle occurs as a contiguous run inside the haystack. -/
def containsChars (needle : List Char) : List Char → Bool
  | [] => startsWithChars needle []
  | b :: bs => startsWithChars needle (b :: bs) || containsChars needle bs

/-- Lowercase every character of a string (given as its character list). -/
def lowerChars (l : List Char) : List Char := l.map Char.toLower

/-- Follows the claim's words: a supplied filter value matches a stored
field when they are equal or the filter value occurs as a case-insensitive
substring of the field. -/
def specFieldMatch (filterVal field : String) : Bool :=
  field == filterVal ||
    containsChars (lowerChars filterVal.data) (lowerChars field.data)

/-- Claim-side reading of one optional filter (absent filters match all). -/
def specOptMatch (f : Option String) (field : String) : Bool :=
  match f with
  | none => true
  | some v => specFieldMatch v field

/-- Claim-side reading of the optional filter on the nullable `state`. -/
def specOptMatchState (f : Option String) (field : Option String) : Bool :=
  match f with
  | none => true
  | some v =>
    match field with
    | none => false
    | some s => specFieldMatch v s

/-- Claim-side predicate for C3: a record matches all supplied filters,
each read as equality-or-case-insensitive-substring. -/
def specAddrMatches (street city state postal_code country : Option String)
    (a : AddressRead) : Bool :=
  (((specOptMatch street a.street && specOptMatch city a.city) &&
      specOptMatchState state a.state) &&
    specOptMatch postal_code a.postal_code) &&
  specOptMatch country a.country

/-- One equality filter of `list_addresses`, trivially true when the query
parameter is absent. -/
def eqOptFilter (f : Option String) (field : String) : Bool :=
  match f with
  | none => true
  | some v => field == v

/-- The equality filter on the nullable `state` field. -/
def eqOptFilterState (f : Option String) (field : Option String) : Bool :=
  match f with
  | none => true
  | some v => field == some v

/-- Conjunction of the five equality filters `list_addresses` applies. -/
def addrMatches (street city state postal_code country : Option String)
    (a : AddressRead) : Bool :=
  (((eqOptFilter street a.street && eqOptFilter city a.city) &&
      eqOptFilterState state a.state) &&
    eqOptFilter postal_code a.postal_code) &&
  eqOptFilter country a.country

/-!  Shared helper lemmas about the handlers. -/

namespace Store

theorem contains_eq_isSome_get? (s : Store α) (k : Nat) :
    s.contains k = (s.get? k).isSome := by
  induction s with
  | nil => rfl
  | cons p t ih =>
    by_cases h : p.1 = k
    · simp [contains, get?, h]
    · have hb : (p.1 == k) = false := by simpa using h
      simpa [contains, get?, hb] using ih

theorem find?_eq_none_of_not_contains {s : Store α} {k : Nat}
    (h : s.contains k = false) : s.find? (fun p => p.1 == k) = none := by
  induction s with
  | nil => rfl
  | cons p t ih =>
    simp only [contains, List.any_cons, Bool.or_eq_false_iff] at h
    simp [List.find?_cons, h.1, ih h.2]

theorem get?_replaceEntry_self {s : Store α} {k : Nat} (v : α)
    (h : s.contains k = true) : (s.replaceEntry k v).get? k = some v := by
  induction s with
  | nil => simp [contains] at h
  | cons p t ih =>
    by_cases hp : p.1 = k
    · have hb : (p.1 == k) = true := by simpa using hp
      simp [replaceEntry, hb, get?]
    · have hb : (p.1 == k) = false := by simpa using hp
      have h' : contains t k = true := by simpa [contains, hb] using h
      simpa [replaceEntry, hb, get?, List.find?_cons] using ih h'

theorem get?_replaceEntry_ne {s : Store α} {k k' : Nat} (v : α)
    (h : k' ≠ k) : (s.replaceEntry k v).get? k' = s.get? k' := by
  have hkk : (k == k') = false := by simpa using (Ne.symm h)
  induction s with
  | nil => rfl
  | cons p t ih =>
    by_cases hp : p.1 = k
    · have hb : (p.1 == k) = true := by simpa using hp
      have hp' : (p.1 == k') = false := by
        subst hp; simpa using (Ne.symm h)
      simp [replaceEntry, hb, get?, List.find?_cons, hkk, hp']
    · have hb : (p.1 == k) = false := by simpa using hp
      by_cases hq : p.1 = k'
      · have hq' : (p.1 == k') = true := by simpa using hq
        simp [replaceEntry, hb, get?, List.find?_cons, hq']
      · have hq' : (p.1 == k') = false := by simpa using hq
        simpa [replaceEntry, hb, get?, List.find?_cons, hq'] using ih

theorem get?_insert_self (s : Store α) (k : Nat) (v : α) :
    (s.insert k v).get? k = some v := by
  unfold insert
  by_cases hc : s.contains k = true
  · simp only [hc, if_true]
    exact get?_replaceEntry_self v hc
  · have hc' : s.contains k = false := by simpa using hc
    simp only [hc', Bool.false_eq_true, if_false]
    simp [get?, List.find?_append, find?_eq_none_of_not_contains hc']

theorem get?_insert_ne (s : Store α) {k k' : Nat} (v : α) (h : k' ≠ k) :
    (s.insert k v).get? k' = s.get? k' := by
  have hkk : (k == k') = false := by simpa using (Ne.symm h)
  unfold insert
  by_cases hc : s.contains k = true
  · simp only [hc, if_true]
    exact get?_replaceEntry_ne v h
  · simp only [hc, if_false]
    simp [get?, List.find?_append, hkk, Store.get?]

theorem get?_erase_self (s : Store α) (k : Nat) :
    (s.erase k).get? k = none := by
  induction s with
  | nil => rfl
  | cons p t ih =>
    by_cases h : p.1 = k
    · have hb : (p.1 != k) = false := by simpa using h
      simpa [erase, List.filter_cons, hb] using ih
    · have hb : (p.1 != k) = true := by simpa using h
      have hb' : (p.1 == k) = false := by simpa using h
      simp only [erase, List.filter_cons, hb, if_true, get?, List.find?_cons, hb']
      simp only [erase, get?] at ih
      exact ih

end Store

theorem get?_eq_none_of_not_contains {s : Store α} {k : Nat}
    (h : s.contains k = false) : s.get? k = none := by
  have h2 := Store.contains_eq_isSome_get? s k
  rw [h] at h2
  cases hg : s.get? k with
  | none => rfl
  | some v => rw [hg] at h2; simp at h2

/-!  Claim theorems. -/

/-- C5 (confirmed): creating an address under a fresh id succeeds with 201,
stores the created record, and a subsequent get of that id returns a record
equal to the created one. -/
theorem C5_create_then_get_roundtrip (st : AppState) (a : AddressCreate)
    (h : st.addresses.contains a.id = false) :
    create_address st a =
      (.ok 201 (AddressRead.ofCreate a),
       { st with addresses :=
           st.addresses.insert a.id (AddressRead.ofCreate a) }) ∧
    get_address (create_address st a).2 a.id =
      .ok 200 (AddressRead.ofCreate a) := by
  have h1 : create_address st a =
      (.ok 201 (AddressRead.ofCreate a),
       { st with addresses :=
           st.addresses.insert a.id (AddressRead.ofCreate a) }) := by
    simp [create_address, h, AddressRead.ofCreate]
  refine ⟨h1, ?_⟩
  rw [h1]
  simp [get_address, Store.get?_insert_self]

/-- Concrete instantiation of `C5_create_then_get_roundtrip`. -/
theorem C5_witness :
    (AppState.mk [] [] [] []).addresses.contains 7 = false ∧
    (create_address (AppState.mk [] [] [] [])
        ⟨7, "Main St", "New York", some "NY", "10001", "USA"⟩ =
      (.ok 201 (AddressRead.ofCreate
          ⟨7, "Main St", "New York", some "NY", "10001", "USA"⟩),
       { (AppState.mk [] [] [] []) with addresses :=
           (Store.insert [] 7 (AddressRead.ofCreate
             ⟨7, "Main St", "New York", some "NY", "10001", "USA"⟩)) }) ∧
     get_address (create_address (AppState.mk [] [] [] [])
          ⟨7, "Main St", "New York", some "NY", "10001", "USA"⟩).2 7 =
       .ok 200 (AddressRead.ofCreate
          ⟨7, "Main St", "New York", some "NY", "10001", "USA"⟩)) :=
  ⟨by decide,
   C5_create_then_get_roundtrip (AppState.mk [] [] [] [])
     ⟨7, "Main St", "New York", some "NY", "10001", "USA"⟩ (by decide)⟩

/-- C6 (confirmed): `POST /paychecks` is rejected with 400 and leaves the
state unchanged when `employee_id` is not a key of the employees store, and
creates the paycheck with 201 when it is. -/
theorem C6_paycheck_requires_employee (st : AppState) (newId : Nat)
    (pc : PaycheckCreate) :
    (st.employees.contains pc.employee_id = false →
      create_paycheck st newId pc = (.err 400 "employee_id does not exist", st)) ∧
    (st.employees.contains pc.employee_id = true →
      create_paycheck st newId pc =
        (.ok 201 ⟨newId, pc.employee_id, pc.amount, pc.date_issued⟩,
         { st with paychecks := (st.paychecks.insert newId
             ⟨newId, pc.employee_id, pc.amount, pc.date_issued⟩) })) := by
  constructor
  · intro h; simp [create_paycheck, h]
  · intro h; simp [create_paycheck, h]

/-- Concrete instantiation of `C6_paycheck_requires_employee`: Alice is
employee `1`; a paycheck for absent employee `2` is rejected with 400 and a
paycheck for employee `1` is created with 201. -/
theorem C6_witness :
    ((AppState.mk [] [] [(1, ⟨1, "Alice", "a@x.com", "dev"⟩)] []).employees.contains 2
        = false ∧
      create_paycheck (AppState.mk [] [] [(1, ⟨1, "Alice", "a@x.com", "dev"⟩)] [])
          5 ⟨2, 100, "2025-01-31"⟩ =
        (.err 400 "employee_id does not exist",
         AppState.mk [] [] [(1, ⟨1, "Alice", "a@x.com", "dev"⟩)] [])) ∧
    ((AppState.mk [] [] [(1, ⟨1, "Alice", "a@x.com", "dev"⟩)] []).employees.contains 1
        = true ∧
      create_paycheck (AppState.mk [] [] [(1, ⟨1, "Alice", "a@x.com", "dev"⟩)] [])
          5 ⟨1, 100, "2025-01-31"⟩ =
        (.ok 201 ⟨5, 1, 100, "2025-01-31"⟩,
         { (AppState.mk [] [] [(1, ⟨1, "Alice", "a@x.com", "dev"⟩)] []) with
             paychecks := Store.insert [] 5 ⟨5, 1, 100, "2025-01-31"⟩ })) :=
  ⟨⟨by decide,
    (C6_paycheck_requires_employee
      (AppState.mk [] [] [(1, ⟨1, "Alice", "a@x.com", "dev"⟩)] [])
      5 ⟨2, 100, "2025-01-31"⟩).1 (by decide)⟩,
   ⟨by decide,
    (C6_paycheck_requires_employee
      (AppState.mk [] [] [(1, ⟨1, "Alice", "a@x.com", "dev"⟩)] [])
      5 ⟨1, 100, "2025-01-31"⟩).2 (by decide)⟩⟩

/-- C7 (confirmed): after `DELETE /employees/{id}` (whether it deleted or
404'd), `GET /employees/{id}` signals 404; deleting an absent id signals
404 and leaves the state unchanged. -/
theorem C7_delete_then_get_not_found (st : AppState) (i : Nat) :
    get_employee (delete_employee st i).2 i = .err 404 "Employee not found" ∧
    (st.employees.contains i = false →
      delete_employee st i = (.err 404 "Employee not found", st)) := by
  constructor
  · by_cases hc : st.employees.contains i = true
    · simp [delete_employee, hc, get_employee, Store.get?_erase_self]
    · have hc' : st.employees.contains i = false := by simpa using hc
      simp [delete_employee, hc', get_employee, get?_eq_none_of_not_contains hc']
  · intro hc
    simp [delete_employee, hc]

/-- Concrete instantiation of `C7_delete_then_get_not_found`. -/
theorem C7_witness :
    (get_employee
        (delete_employee
          (AppState.mk [] [] [(1, ⟨1, "Alice", "a@x.com", "dev"⟩)] []) 1).2 1 =
      .err 404 "Employee not found") ∧
    ((AppState.mk [] [] [] []).employees.contains 3 = false ∧
      delete_employee (AppState.mk [] [] [] []) 3 =
        (.err 404 "Employee not found", AppState.mk [] [] [] [])) :=
  ⟨(C7_delete_then_get_not_found
      (AppState.mk [] [] [(1, ⟨1, "Alice", "a@x.com", "dev"⟩)] []) 1).1,
   ⟨by decide, (C7_delete_then_get_not_found (AppState.mk [] [] [] []) 3).2
      (by decide)⟩⟩

/-- C9 (confirmed): the update payloads carry no id field, so `PUT
/employees/{id}` and `PUT /paychecks/{id}` leave the id stored under every
key unchanged. -/
theorem C9_update_preserves_id (st : AppState) (i k : Nat)
    (plE : EmployeeUpdate) (plP : PaycheckUpdate) :
    (((update_employee st i plE).2).employees.get? k).map EmployeeRead.id =
      (st.employees.get? k).map EmployeeRead.id ∧
    (((update_paycheck st i plP).2).paychecks.get? k).map PaycheckRead.id =
      (st.paychecks.get? k).map PaycheckRead.id := by
  constructor
  · cases hg : st.employees.get? i with
    | none => simp [update_employee, hg]
    | some r =>
      by_cases hk : k = i
      · subst hk
        simp [update_employee, hg, Store.get?_insert_self, mergeEmployee]
      · simp [update_employee, hg, Store.get?_insert_ne _ _ hk]
  · cases hg : st.paychecks.get? i with
    | none => simp [update_paycheck, hg]
    | some r =>
      by_cases hk : k = i
      · subst hk
        simp [update_paycheck, hg, Store.get?_insert_self, mergePaycheck]
      · simp [update_paycheck, hg, Store.get?_insert_ne _ _ hk]

/-- C10 (confirmed): the employee-existence check is enforced only at
paycheck creation: a stored paycheck can be re-pointed to an absent
employee with 200, `PUT /paychecks/{id}` 404s only when the paycheck id is
absent, and deleting an employee leaves the paychecks store untouched. -/
theorem C10_dangling_references :
    (∀ (st : AppState) (pid e : Nat) (r : PaycheckRead),
      st.paychecks.get? pid = some r →
      st.employees.contains e = false →
      update_paycheck st pid ⟨.set e, .unset, .unset⟩ =
        (.ok 200 ⟨r.id, e, r.amount, r.date_issued⟩,
         { st with paychecks := (st.paychecks.insert pid
             ⟨r.id, e, r.amount, r.date_issued⟩) })) ∧
    (∀ (st : AppState) (pid : Nat) (pl : PaycheckUpdate),
      st.paychecks.get? pid = none →
      update_paycheck st pid pl = (.err 404 "Paycheck not found", st)) ∧
    (∀ (st : AppState) (i : Nat),
      (delete_employee st i).2.paychecks = st.paychecks) := by
  refine ⟨?_, ?_, ?_⟩
  · intro st pid e r hg _
    simp [update_paycheck, hg, mergePaycheck, Patch.getD]
  · intro st pid pl hg
    simp [update_paycheck, hg]
  · intro st i
    by_cases hc : st.employees.contains i = true
    · simp [delete_employee, hc]
    · have hc' : st.employees.contains i = false := by simpa using hc
      simp [delete_employee, hc']

/-- Concrete instantiation of `C10_dangling_references`: paycheck `5`
belongs to employee `1`; re-pointing it to absent employee `9` succeeds,
updating an absent paycheck 404s, and deleting employee `1` leaves the
paychecks store intact. -/
theorem C10_witness :
    ((AppState.mk [] [] [(1, ⟨1, "Alice", "a@x.com", "dev"⟩)]
          [(5, ⟨5, 1, 100, "2025-01-31"⟩)]).paychecks.get? 5 =
        some ⟨5, 1, 100, "2025-01-31"⟩ ∧
      update_paycheck
          (AppState.mk [] [] [(1, ⟨1, "Alice", "a@x.com", "dev"⟩)]
            [(5, ⟨5, 1, 100, "2025-01-31"⟩)]) 5 ⟨.set 9, .unset, .unset⟩ =
        (.ok 200 ⟨5, 9, 100, "2025-01-31"⟩,
         { (AppState.mk [] [] [(1, ⟨1, "Alice", "a@x.com", "dev"⟩)]
             [(5, ⟨5, 1, 100, "2025-01-31"⟩)]) with
             paychecks := (Store.insert [(5, ⟨5, 1, 100, "2025-01-31"⟩)] 5
               ⟨5, 9, 100, "2025-01-31"⟩) })) ∧
    (update_paycheck (AppState.mk [] [] [] []) 5 ⟨.set 9, .unset, .unset⟩ =
      (.err 404 "Paycheck not found", AppState.mk [] [] [] [])) ∧
    ((delete_employee
        (AppState.mk [] [] [(1, ⟨1, "Alice", "a@x.com", "dev"⟩)]
          [(5, ⟨5, 1, 100, "2025-01-31"⟩)]) 1).2.paychecks =
      [(5, ⟨5, 1, 100, "2025-01-31"⟩)]) :=
  ⟨⟨by decide,
    C10_dangling_references.1
      (AppState.mk [] [] [(1, ⟨1, "Alice", "a@x.com", "dev"⟩)]
        [(5, ⟨5, 1, 100, "2025-01-31"⟩)]) 5 9 ⟨5, 1, 100, "2025-01-31"⟩
      (by decide) (by decide)⟩,
   C10_dangling_references.2.1 (AppState.mk [] [] [] []) 5
     ⟨.set 9, .unset, .unset⟩ (by decide),
   C10_dangling_references.2.2
     (AppState.mk [] [] [(1, ⟨1, "Alice", "a@x.com", "dev"⟩)]
       [(5, ⟨5, 1, 100, "2025-01-31"⟩)]) 1⟩

@[simp]
theorem Patch.getD_unset (d : α) : (Patch.unset).getD d = d := rfl

@[simp]
theorem Patch.getD_set (v d : α) : (Patch.set v).getD d = v := rfl

/-- C1 counterexample: with a person of id 1 already stored, `POST
/persons` with the same id 1 is not rejected — it returns 201 and changes
the store — contradicting the claim for the persons entity kind. -/
theorem C1_counterexample_duplicate_person_accepted :
    ((create_person
        (AppState.mk
          [(1, ⟨1, "ab1234", "Alice", "Ann", "a@x.com", "555", "2000-01-01", []⟩)]
          [] [] [])
        ⟨1, "cd5678", "Bob", "Ben", "b@x.com", "556", "1999-01-01", []⟩).1 =
      .ok 201 (PersonRead.ofCreate
        ⟨1, "cd5678", "Bob", "Ben", "b@x.com", "556", "1999-01-01", []⟩)) ∧
    ((create_person
        (AppState.mk
          [(1, ⟨1, "ab1234", "Alice", "Ann", "a@x.com", "555", "2000-01-01", []⟩)]
          [] [] [])
        ⟨1, "cd5678", "Bob", "Ben", "b@x.com", "556", "1999-01-01", []⟩).2 ≠
      AppState.mk
        [(1, ⟨1, "ab1234", "Alice", "Ann", "a@x.com", "555", "2000-01-01", []⟩)]
        [] [] []) := by
  constructor
  · decide
  · decide

/-- C1 (corrected): `POST /addresses` rejects a duplicate id with 400 and
leaves the state unchanged, but `POST /persons` performs no duplicate
check: it always returns 201 and stores (overwriting if present) the
supplied record under its id. -/
theorem C1_amended_duplicate_create :
    (∀ (st : AppState) (a : AddressCreate),
      st.addresses.contains a.id = true →
      create_address st a =
        (.err 400 "Address with this ID already exists", st)) ∧
    (∀ (st : AppState) (p : PersonCreate),
      (create_person st p).1 = .ok 201 (PersonRead.ofCreate p) ∧
      ((create_person st p).2).persons.get? p.id =
        some (PersonRead.ofCreate p)) := by
  constructor
  · intro st a h
    simp [create_address, h]
  · intro st p
    exact ⟨rfl, by simp [create_person, PersonRead.ofCreate, Store.get?_insert_self]⟩

/-- Concrete instantiation of `C1_amended_duplicate_create`: address id 2
already exists, so creating it again yields 400 and no state change. -/
theorem C1_amended_witness :
    (AppState.mk [] [(2, ⟨2, "Main St", "NYC", none, "10001", "US"⟩)] [] []).addresses.contains 2
      = true ∧
    create_address
        (AppState.mk [] [(2, ⟨2, "Main St", "NYC", none, "10001", "US"⟩)] [] [])
        ⟨2, "Elm St", "Boston", none, "02101", "US"⟩ =
      (.err 400 "Address with this ID already exists",
       AppState.mk [] [(2, ⟨2, "Main St", "NYC", none, "10001", "US"⟩)] [] []) :=
  ⟨by decide,
   C1_amended_duplicate_create.1
     (AppState.mk [] [(2, ⟨2, "Main St", "NYC", none, "10001", "US"⟩)] [] [])
     ⟨2, "Elm St", "Boston", none, "02101", "US"⟩ (by decide)⟩

/-- C2 counterexample: two states that differ only in the stored employee's
email receive the same PUT payload (only `name` supplied) and end in
different states, so the post-state is not independent of the record's
previous field values: PUT merges instead of fully overwriting. -/
theorem C2_counterexample_put_depends_on_prior_state :
    (update_employee (AppState.mk [] [] [(1, ⟨1, "Alice", "a@x.com", "dev"⟩)] [])
        1 ⟨.set "Bob", .unset, .unset⟩).2 ≠
      (update_employee (AppState.mk [] [] [(1, ⟨1, "Alice", "b@y.com", "dev"⟩)] [])
        1 ⟨.set "Bob", .unset, .unset⟩).2 := by
  decide

/-- C2 (corrected): the PUT handlers merge with `exclude_unset` semantics
for every payload (for both `PUT /employees/{id}` and `PUT
/paychecks/{id}`): the stored id is preserved, every field not supplied in
the payload keeps its previous value, every supplied field takes the
supplied value, and in particular a payload supplying every updatable
field overwrites all of them. -/
theorem C2_amended_put_overwrites_supplied_fields :
    (∀ (st : AppState) (i : Nat) (pl : EmployeeUpdate) (r : EmployeeRead),
      st.employees.get? i = some r →
      update_employee st i pl =
        (.ok 200 (mergeEmployee r pl),
         { st with employees := st.employees.insert i (mergeEmployee r pl) }) ∧
      (mergeEmployee r pl).id = r.id ∧
      (pl.name = .unset → (mergeEmployee r pl).name = r.name) ∧
      (∀ v, pl.name = .set v → (mergeEmployee r pl).name = v) ∧
      (pl.email = .unset → (mergeEmployee r pl).email = r.email) ∧
      (∀ v, pl.email = .set v → (mergeEmployee r pl).email = v) ∧
      (pl.position = .unset → (mergeEmployee r pl).position = r.position) ∧
      (∀ v, pl.position = .set v → (mergeEmployee r pl).position = v) ∧
      (∀ n e po, pl = ⟨.set n, .set e, .set po⟩ →
        mergeEmployee r pl = ⟨r.id, n, e, po⟩)) ∧
    (∀ (st : AppState) (i : Nat) (pl : PaycheckUpdate) (r : PaycheckRead),
      st.paychecks.get? i = some r →
      update_paycheck st i pl =
        (.ok 200 (mergePaycheck r pl),
         { st with paychecks := st.paychecks.insert i (mergePaycheck r pl) }) ∧
      (mergePaycheck r pl).id = r.id ∧
      (pl.employee_id = .unset →
        (mergePaycheck r pl).employee_id = r.employee_id) ∧
      (∀ v, pl.employee_id = .set v → (mergePaycheck r pl).employee_id = v) ∧
      (pl.amount = .unset → (mergePaycheck r pl).amount = r.amount) ∧
      (∀ v, pl.amount = .set v → (mergePaycheck r pl).amount = v) ∧
      (pl.date_issued = .unset →
        (mergePaycheck r pl).date_issued = r.date_issued) ∧
      (∀ v, pl.date_issued = .set v → (mergePaycheck r pl).date_issued = v) ∧
      (∀ eid am d, pl = ⟨.set eid, .set am, .set d⟩ →
        mergePaycheck r pl = ⟨r.id, eid, am, d⟩)) := by
  constructor
  · intro st i pl r h
    refine ⟨by simp [update_employee, h], rfl, ?_, ?_, ?_, ?_, ?_, ?_, ?_⟩
    · intro hv; simp [mergeEmployee, hv]
    · intro v hv; simp [mergeEmployee, hv]
    · intro hv; simp [mergeEmployee, hv]
    · intro v hv; simp [mergeEmployee, hv]
    · intro hv; simp [mergeEmployee, hv]
    · intro v hv; simp [mergeEmployee, hv]
    · intro n e po hpl; simp [mergeEmployee, hpl]
  · intro st i pl r h
    refine ⟨by simp [update_paycheck, h], rfl, ?_, ?_, ?_, ?_, ?_, ?_, ?_⟩
    · intro hv; simp [mergePaycheck, hv]
    · intro v hv; simp [mergePaycheck, hv]
    · intro hv; simp [mergePaycheck, hv]
    · intro v hv; simp [mergePaycheck, hv]
    · intro hv; simp [mergePaycheck, hv]
    · intro v hv; simp [mergePaycheck, hv]
    · intro eid am d hpl; simp [mergePaycheck, hpl]

/-- Concrete instantiation of `C2_amended_put_overwrites_supplied_fields`:
a partial payload supplying only `name` merges into employee 1. -/
theorem C2_amended_witness :
    (AppState.mk [] [] [(1, ⟨1, "Alice", "a@x.com", "dev"⟩)] []).employees.get? 1 =
      some ⟨1, "Alice", "a@x.com", "dev"⟩ ∧
    update_employee (AppState.mk [] [] [(1, ⟨1, "Alice", "a@x.com", "dev"⟩)] [])
        1 ⟨.set "Bob", .unset, .unset⟩ =
      (.ok 200 (mergeEmployee ⟨1, "Alice", "a@x.com", "dev"⟩
          ⟨.set "Bob", .unset, .unset⟩),
       { (AppState.mk [] [] [(1, ⟨1, "Alice", "a@x.com", "dev"⟩)] []) with
           employees := (Store.insert [(1, ⟨1, "Alice", "a@x.com", "dev"⟩)] 1
             (mergeEmployee ⟨1, "Alice", "a@x.com", "dev"⟩
               ⟨.set "Bob", .unset, .unset⟩)) }) :=
  ⟨by decide,
   (C2_amended_put_overwrites_supplied_fields.1
     (AppState.mk [] [] [(1, ⟨1, "Alice", "a@x.com", "dev"⟩)] []) 1
     ⟨.set "Bob", .unset, .unset⟩ ⟨1, "Alice", "a@x.com", "dev"⟩ (by decide)).1⟩

theorem filter_and_comp (p q : α → Bool) (l : List α) :
    (l.filter p).filter q = l.filter (fun a => p a && q a) := by
  induction l with
  | nil => rfl
  | cons a t ih =>
    by_cases hp : p a <;> by_cases hq : q a <;>
      simp [List.filter_cons, hp, hq, ih]

/-- C3 counterexample: the stored city "A" contains the filter value "a" as
a case-insensitive substring but is not equal to it; under the claim's
reading the record must be returned, but the handler filters by exact
equality and returns nothing. -/
theorem C3_counterexample_substring_not_matched :
    list_addresses (AppState.mk [] [(1, ⟨1, "S", "A", none, "P", "C"⟩)] [] [])
        none (some "a") none none none = [] ∧
    (((AppState.mk [] [(1, ⟨1, "S", "A", none, "P", "C"⟩)] [] []).addresses.values).filter
        (specAddrMatches none (some "a") none none none)) =
      [⟨1, "S", "A", none, "P", "C"⟩] ∧
    list_addresses (AppState.mk [] [(1, ⟨1, "S", "A", none, "P", "C"⟩)] [] [])
        none (some "a") none none none ≠
      (((AppState.mk [] [(1, ⟨1, "S", "A", none, "P", "C"⟩)] [] []).addresses.values).filter
        (specAddrMatches none (some "a") none none none)) := by
  refine ⟨by decide, by decide, by decide⟩

/-- C3 (corrected): `GET /addresses` returns exactly the stored records (in
insertion order) satisfying the conjunction of the supplied filters, each
matching by exact, case-sensitive equality on the named field; with no
filters it returns every stored record. -/
theorem C3_amended_list_filters_by_equality (st : AppState)
    (street city state postal_code country : Option String) :
    list_addresses st street city state postal_code country =
      (st.addresses.values).filter
        (addrMatches street city state postal_code country) := by
  unfold list_addresses addrMatches
  cases street <;> cases city <;> cases state <;> cases postal_code <;>
    cases country <;>
      simp only [eqOptFilter, eqOptFilterState, filter_and_comp,
        Bool.true_and, Bool.and_true, List.filter_true]

/-- C4 (confirmed): the PATCH handlers for addresses and persons change
only the fields explicitly supplied in the patch; every unsupplied field
keeps its pre-update value, every supplied field takes the supplied value,
and on the nullable `state` field an explicit null (`.set none`) is
distinguished from an unsupplied field (`.unset`). -/
theorem C4_patch_updates_only_supplied_fields :
    (∀ (st : AppState) (i : Nat) (u : AddressUpdate) (r : AddressRead),
      st.addresses.get? i = some r →
      update_address st i u =
        (.ok 200 (mergeAddress r u),
         { st with addresses := st.addresses.insert i (mergeAddress r u) }) ∧
      ((update_address st i u).2).addresses.get? i = some (mergeAddress r u) ∧
      (mergeAddress r u).id = r.id ∧
      (u.street = .unset → (mergeAddress r u).street = r.street) ∧
      (∀ v, u.street = .set v → (mergeAddress r u).street = v) ∧
      (u.city = .unset → (mergeAddress r u).city = r.city) ∧
      (∀ v, u.city = .set v → (mergeAddress r u).city = v) ∧
      (u.state = .unset → (mergeAddress r u).state = r.state) ∧
      (∀ v, u.state = .set v → (mergeAddress r u).state = v) ∧
      (u.postal_code = .unset → (mergeAddress r u).postal_code = r.postal_code) ∧
      (∀ v, u.postal_code = .set v → (mergeAddress r u).postal_code = v) ∧
      (u.country = .unset → (mergeAddress r u).country = r.country) ∧
      (∀ v, u.country = .set v → (mergeAddress r u).country = v)) ∧
    (∀ (st : AppState) (i : Nat) (u : PersonUpdate) (q : PersonRead),
      st.persons.get? i = some q →
      update_person st i u =
        (.ok 200 (mergePerson q u),
         { st with persons := st.persons.insert i (mergePerson q u) }) ∧
      (mergePerson q u).id = q.id ∧
      (u.uni = .unset → (mergePerson q u).uni = q.uni) ∧
      (∀ v, u.uni = .set v → (mergePerson q u).uni = v) ∧
      (u.first_name = .unset → (mergePerson q u).first_name = q.first_name) ∧
      (∀ v, u.first_name = .set v → (mergePerson q u).first_name = v) ∧
      (u.last_name = .unset → (mergePerson q u).last_name = q.last_name) ∧
      (∀ v, u.last_name = .set v → (mergePerson q u).last_name = v) ∧
      (u.email = .unset → (mergePerson q u).email = q.email) ∧
      (∀ v, u.email = .set v → (mergePerson q u).email = v) ∧
      (u.phone = .unset → (mergePerson q u).phone = q.phone) ∧
      (∀ v, u.phone = .set v → (mergePerson q u).phone = v) ∧
      (u.birth_date = .unset → (mergePerson q u).birth_date = q.birth_date) ∧
      (∀ v, u.birth_date = .set v → (mergePerson q u).birth_date = v) ∧
      (u.addresses = .unset → (mergePerson q u).addresses = q.addresses) ∧
      (∀ v, u.addresses = .set v → (mergePerson q u).addresses = v)) := by
  constructor
  · intro st i u r h
    refine ⟨by simp [update_address, h],
      by simp [update_address, h, Store.get?_insert_self], rfl,
      ?_, ?_, ?_, ?_, ?_, ?_, ?_, ?_, ?_, ?_⟩ <;>
    · intro hv₁
      first
      | (intro hv₂; simp [mergeAddress, hv₂])
      | simp [mergeAddress, hv₁]
  · intro st i u q h
    refine ⟨by simp [update_person, h], rfl,
      ?_, ?_, ?_, ?_, ?_, ?_, ?_, ?_, ?_, ?_, ?_, ?_, ?_, ?_⟩ <;>
    · intro hv₁
      first
      | (intro hv₂; simp [mergePerson, hv₂])
      | simp [mergePerson, hv₁]

/-- Concrete instantiation of `C4_patch_updates_only_supplied_fields`:
patching only the city of address 1 and only the email of person 1. -/
theorem C4_witness :
    ((AppState.mk [] [(1, ⟨1, "Main St", "NYC", some "NY", "10001", "US"⟩)] [] []).addresses.get? 1
        = some ⟨1, "Main St", "NYC", some "NY", "10001", "US"⟩ ∧
      update_address
          (AppState.mk [] [(1, ⟨1, "Main St", "NYC", some "NY", "10001", "US"⟩)] [] [])
          1 ⟨.unset, .set "Boston", .unset, .unset, .unset⟩ =
        (.ok 200 (mergeAddress ⟨1, "Main St", "NYC", some "NY", "10001", "US"⟩
            ⟨.unset, .set "Boston", .unset, .unset, .unset⟩),
         { (AppState.mk [] [(1, ⟨1, "Main St", "NYC", some "NY", "10001", "US"⟩)] [] []) with
             addresses :=
               (Store.insert [(1, ⟨1, "Main St", "NYC", some "NY", "10001", "US"⟩)] 1
                 (mergeAddress ⟨1, "Main St", "NYC", some "NY", "10001", "US"⟩
                   ⟨.unset, .set "Boston", .unset, .unset, .unset⟩)) })) ∧
    ((AppState.mk
          [(1, ⟨1, "ab1234", "Alice", "Ann", "a@x.com", "555", "2000-01-01", []⟩)]
          [] [] []).persons.get? 1 =
        some ⟨1, "ab1234", "Alice", "Ann", "a@x.com", "555", "2000-01-01", []⟩ ∧
      update_person
          (AppState.mk
            [(1, ⟨1, "ab1234", "Alice", "Ann", "a@x.com", "555", "2000-01-01", []⟩)]
            [] [] [])
          1 ⟨.unset, .unset, .unset, .set "new@x.com", .unset, .unset, .unset⟩ =
        (.ok 200 (mergePerson
            ⟨1, "ab1234", "Alice", "Ann", "a@x.com", "555", "2000-01-01", []⟩
            ⟨.unset, .unset, .unset, .set "new@x.com", .unset, .unset, .unset⟩),
         { (AppState.mk
              [(1, ⟨1, "ab1234", "Alice", "Ann", "a@x.com", "555", "2000-01-01", []⟩)]
              [] [] []) with
             persons :=
               (Store.insert
                 [(1, ⟨1, "ab1234", "Alice", "Ann", "a@x.com", "555", "2000-01-01", []⟩)] 1
                 (mergePerson
                   ⟨1, "ab1234", "Alice", "Ann", "a@x.com", "555", "2000-01-01", []⟩
                   ⟨.unset, .unset, .unset, .set "new@x.com", .unset, .unset, .unset⟩)) })) :=
  ⟨⟨by decide,
    (C4_patch_updates_only_supplied_fields.1
      (AppState.mk [] [(1, ⟨1, "Main St", "NYC", some "NY", "10001", "US"⟩)] [] [])
      1 ⟨.unset, .set "Boston", .unset, .unset, .unset⟩
      ⟨1, "Main St", "NYC", some "NY", "10001", "US"⟩ (by decide)).1⟩,
   ⟨by decide,
    (C4_patch_updates_only_supplied_fields.2
      (AppState.mk
        [(1, ⟨1, "ab1234", "Alice", "Ann", "a@x.com", "555", "2000-01-01", []⟩)]
        [] [] [])
      1 ⟨.unset, .unset, .unset, .set "new@x.com", .unset, .unset, .unset⟩
      ⟨1, "ab1234", "Alice", "Ann", "a@x.com", "555", "2000-01-01", []⟩
      (by decide)).1⟩⟩

/-- C8 (confirmed against the spec-modelled order handlers): with product 1
being Widget priced 5/2 (= 2.5), creating an order for quantity 3 yields
`total_price` 15/2 (= 7.5), and updating the order's quantity to 4
recomputes `total_price` to 10. -/
theorem C8_order_total_price_scenario :
    (create_order [(1, ⟨1, "Widget", 5/2, none⟩)] [] 10 1 3).1 =
      .ok 201 ⟨10, 1, 3, 15/2⟩ ∧
    (update_order_quantity [(1, ⟨1, "Widget", 5/2, none⟩)]
        (create_order [(1, ⟨1, "Widget", 5/2, none⟩)] [] 10 1 3).2 10 4).1 =
      .ok 200 ⟨10, 1, 4, 10⟩ := by
  constructor
  · simp only [create_order, Store.get?, List.find?]
    norm_num
  · simp only [create_order, update_order_quantity, Store.get?, Store.insert,
      Store.contains, List.find?, List.any]
    norm_num

end SimpleMS
